import Mathlib

/-!
Shallow embedding of the test-quality analysis pipeline of the
`cnbc_testauhtoringtool` repository (backend/app), together with proofs of
the behavioural claims made by its specification.

Conventions used throughout:
* Python `float` values produced by the pipeline are modelled exactly with `ℚ`
  where the code only adds, subtracts, multiplies and compares small dyadic
  constants, and with `ℝ` where a square root occurs (cosine similarity).
* Python `int` line numbers are modelled with `ℤ`.
* External effects (the `ast` parser, the OpenAI embedding endpoint, the file
  system) are modelled as explicit inputs: a parse result is an
  `Option PyNode` (`none` = the parser raised), an embedding-service response
  is the list of vectors it returned (`[]` = failure, as in the source, whose
  `_get_embeddings` catches every exception and returns `[]`).
-/

namespace TestAuthoring

/-! ## Data model (backend/app/optimizers/models.py, coverage/coverage_models.py) -/

/-- `TestCase` from `app/optimizers/models.py`. -/
structure TestCase where
  name : String
  code : String
  line_start : Int
  line_end : Int
  docstring : Option String := none
  deriving DecidableEq, Repr, Inhabited

/-- `SimilarTestPair` from `app/optimizers/models.py`; `similarity` is the
rounded cosine similarity stored on the record. -/
structure SimilarTestPair where
  test1 : String
  test2 : String
  similarity : ℝ
  suggestion : String
  example_code : Option String := none

/-- `OptimizationSuggestion` from `app/optimizers/models.py`. -/
structure OptimizationSuggestion where
  type : String
  tests : List String
  reason : String
  suggestion : String
  code_example : Option String := none
  deriving DecidableEq, Repr

/-- `RedundantTest` from `app/optimizers/models.py`. -/
structure RedundantTest where
  test : String
  reason : String
  existing_test : Option String := none
  suggestion : String
  deriving DecidableEq, Repr

/-- `OutdatedTest` from `app/optimizers/models.py`. -/
structure OutdatedTest where
  test : String
  issue : String
  fix : String
  severity : String
  deriving DecidableEq, Repr

/-- `OptimizationReport` from `app/optimizers/models.py`.  Only the finding
lists enter the quality score, so the score is stated over this record. -/
structure OptimizationReport where
  similar_pairs : List SimilarTestPair := []
  optimizations : List OptimizationSuggestion := []
  redundant_tests : List RedundantTest := []
  outdated_tests : List OutdatedTest := []

/-- `CoverageGap` from `app/coverage/coverage_models.py`. -/
structure CoverageGap where
  file_path : String
  line_start : Int
  line_end : Int
  function_name : Option String := none
  complexity : Int := 0
  reason : String := ""
  deriving DecidableEq, Repr

/-- `ModuleCoverage` from `app/coverage/coverage_models.py` (the fields the
analyzer populates). -/
structure ModuleCoverage where
  file_path : String
  before : ℚ
  after : ℚ
  change : ℚ
  deriving DecidableEq, Repr

/-- Per-file coverage payload: the dictionary shapes understood by
`CoverageAnalyzer._get_file_coverage` and `GapAnalyzer._get_uncovered_lines`.
`summary` models a `'summary'` entry whose inner `Option` is the
`'percent_covered'` value (`.get('percent_covered', 0.0)` in the source);
`s` models the JavaScript per-statement execution-count map (keys are the
parsed integer statement ids); `missing_lines` and `lines` model the Python
coverage shapes.  An absent key is `none`; the empty dict `{}` is the record
with every field `none`. -/
structure FileData where
  summary : Option (Option ℚ) := none
  s : Option (List (Int × Int)) := none
  missing_lines : Option (List Int) := none
  lines : Option (List (Int × Int)) := none
  deriving DecidableEq, Repr

/-- `CoverageData` from `app/coverage/coverage_models.py`: aggregate coverage
percentage plus the per-file payloads (an insertion-ordered dict, modelled as
an association list). -/
structure CoverageData where
  total_coverage : ℚ
  files : List (String × FileData) := []
  deriving DecidableEq, Repr

/-- The fields of `CoverageReport` that `CoverageAnalyzer.analyze` computes
from the two coverage runs (lines 113-124 of
`app/coverage/coverage_analyzer.py`). -/
structure CoverageReportCore where
  before_coverage : ℚ
  after_coverage : ℚ
  coverage_gain : ℚ
  modules : List ModuleCoverage
  deriving DecidableEq, Repr

/-! ## Quality score (TestCaseOptimizer._calculate_quality_score) -/

/-- `TestCaseOptimizer._calculate_quality_score` from
`app/optimizers/test_optimizer.py` (lines 155-180): start at 10.0, deduct 0.5
per similar pair, 0.75 per redundant test, 1.0 per outdated test, 0.25 per
optimization suggestion, then clamp the result into `[0, 10]` via
`max(0.0, min(10.0, score))`. -/
def calculate_quality_score (report : OptimizationReport) : ℚ :=
  let score : ℚ := 10
  let score := score - report.similar_pairs.length * (1/2)
  let score := score - report.redundant_tests.length * (3/4)
  let score := score - report.outdated_tests.length * 1
  let score := score - report.optimizations.length * (1/4)
  max 0 (min 10 score)

/-! ## Gap grouping (GapAnalyzer._group_line_ranges) -/

/-- One iteration of the loop body of `GapAnalyzer._group_line_ranges`
(`app/coverage/gap_analyzer.py`, lines 171-176): accumulated ranges together
with the current `start` and `prev`, updated for the next line. -/
def group_step (max_gap : Int) (acc : List (Int × Int) × Int × Int) (line : Int) :
    List (Int × Int) × Int × Int :=
  let (ranges, start, prev) := acc
  if line - prev > max_gap then (ranges ++ [(start, prev)], line, line)
  else (ranges, start, line)

/-- `GapAnalyzer._group_line_ranges` from `app/coverage/gap_analyzer.py`
(lines 162-181): group a list of line numbers into `(start, end)` ranges,
starting a new range whenever the difference between the current line and the
previous one exceeds `max_gap` (the merge tolerance, default 3). -/
def group_line_ranges (lines : List Int) (max_gap : Int := 3) : List (Int × Int) :=
  match lines with
  | [] => []
  | l0 :: rest =>
    let st := rest.foldl (group_step max_gap) ([], l0, l0)
    st.1 ++ [(st.2.1, st.2.2)]

/-! ## Python AST model

The pipeline calls the standard-library `ast` module.  We model a parsed
Python AST as a rose tree of nodes, keeping exactly the attributes the
pipeline inspects: function definitions (name, `lineno`, `end_lineno`,
docstring), `assert` statements (the `ast.unparse` text of their test
expression, `none` when `unparse` raises), expression statements whose value
is an attribute call (the attribute name and the `ast.unparse` text of the
call), and every other node shape collapsed to `other`.  `ast.parse` itself
is an external effect and is passed in as a `String → Option PyNode`
(`none` = the parser raised). -/

inductive PyNode where
  /-- an `ast.FunctionDef` node -/
  | funcDef (name : String) (lineno : Int) (endLineno : Option Int)
      (docstring : Option String) (children : List PyNode)
  /-- an `ast.AsyncFunctionDef` node -/
  | asyncFuncDef (name : String) (lineno : Int) (endLineno : Option Int)
      (docstring : Option String) (children : List PyNode)
  /-- an `ast.Assert` node; `testText` is `ast.unparse(node.test)` -/
  | assertStmt (testText : Option String) (children : List PyNode)
  /-- an `ast.Expr` wrapping an `ast.Call` whose `func` has an `attr`;
  `unparsed` is `ast.unparse(node.value)` -/
  | exprAttrCall (attr : String) (unparsed : Option String) (children : List PyNode)
  /-- any other node -/
  | other (children : List PyNode)

namespace PyNode

/-- Children of a node, in source order (`ast.iter_child_nodes`). -/
def children : PyNode → List PyNode
  | funcDef _ _ _ _ cs => cs
  | asyncFuncDef _ _ _ _ cs => cs
  | assertStmt _ cs => cs
  | exprAttrCall _ _ cs => cs
  | other cs => cs

mutual

/-- Number of nodes in a tree (used as fuel for the breadth-first walk). -/
def nodeCount : PyNode → Nat
  | funcDef _ _ _ _ cs => 1 + nodeCountList cs
  | asyncFuncDef _ _ _ _ cs => 1 + nodeCountList cs
  | assertStmt _ cs => 1 + nodeCountList cs
  | exprAttrCall _ _ cs => 1 + nodeCountList cs
  | other cs => 1 + nodeCountList cs

/-- Total node count of a forest. -/
def nodeCountList : List PyNode → Nat
  | [] => 0
  | n :: ns => nodeCount n + nodeCountList ns

end

mutual

/-- All nodes of a tree in depth-first order (used only as the reference
multiset for the breadth-first walk). -/
def allNodes : PyNode → List PyNode
  | funcDef nm l e d cs => funcDef nm l e d cs :: allNodesList cs
  | asyncFuncDef nm l e d cs => asyncFuncDef nm l e d cs :: allNodesList cs
  | assertStmt t cs => assertStmt t cs :: allNodesList cs
  | exprAttrCall a u cs => exprAttrCall a u cs :: allNodesList cs
  | other cs => other cs :: allNodesList cs

/-- All nodes of a forest in depth-first order. -/
def allNodesList : List PyNode → List PyNode
  | [] => []
  | n :: ns => allNodes n ++ allNodesList ns

end

/-- Fuel-indexed breadth-first traversal: `ast.walk` pops the front of a
deque, yields the node and pushes its children at the back.  One unit of fuel
is spent per yielded node, so `nodeCountList q` fuel suffices. -/
def walkFuel : Nat → List PyNode → List PyNode
  | _, [] => []
  | 0, _ => []
  | fuel + 1, n :: q => n :: walkFuel fuel (q ++ n.children)

/-- `ast.walk` over a forest: breadth-first traversal of all nodes. -/
def walk (roots : List PyNode) : List PyNode :=
  walkFuel (nodeCountList roots) roots

end PyNode

/-! ## Test-case extraction (TestCaseOptimizer._parse_tests) -/

/-- Whether `needle` starts `hay` (character-list version of Python's
startswith, also used to build the substring test). -/
def leadsWith : List Char → List Char → Bool
  | [], _ => true
  | _ :: _, [] => false
  | a :: as, b :: bs => a == b && leadsWith as bs

/-- Python's `s.startswith(pre)`. -/
def str_startsWith (s pre : String) : Bool :=
  leadsWith pre.data s.data

/-- Splitting a character list on a separator character, with Python
`str.split` semantics (the empty string yields `['']`, a trailing separator
yields a trailing `''`). -/
def splitOnChar (sep : Char) : List Char → List (List Char)
  | [] => [[]]
  | c :: rest =>
    let r := splitOnChar sep rest
    if c = sep then [] :: r
    else
      match r with
      | [] => [[c]]
      | g :: gs => (c :: g) :: gs

/-- Python's `test_code.split('\n')`. -/
def split_lines (s : String) : List String :=
  (splitOnChar '\n' s.data).map String.mk

/-- Python list slice `lines[start-1 : stop]` as used on the split source
text; `stop = none` models `end_lineno` being `None`, in which case the slice
runs to the end of the list. -/
def sliceLines (lines : List String) (start : Int) (stop : Option Int) : List String :=
  let dropped := lines.drop (start - 1).toNat
  match stop with
  | none => dropped
  | some e => dropped.take (e - (start - 1)).toNat

/-- The per-node body of the loop in `TestCaseOptimizer._parse_tests`
(`app/optimizers/test_optimizer.py`, lines 128-146): an `ast.FunctionDef`
whose name starts with `test_` becomes a `TestCase`; `code` is the slice
`test_code.split('\n')[node.lineno-1 : node.end_lineno]` rejoined with
newlines, and `line_end` is `node.end_lineno or node.lineno`. -/
def extract_test_case (test_code : String) (n : PyNode) : Option TestCase :=
  match n with
  | .funcDef name lineno endLineno docstring _ =>
    if str_startsWith name "test_" then
      some { name := name,
             code := String.intercalate "\n"
               (sliceLines (split_lines test_code) lineno endLineno),
             line_start := lineno,
             line_end := endLineno.getD lineno,
             docstring := docstring }
    else none
  | _ => none

/-- `TestCaseOptimizer._parse_tests` from `app/optimizers/test_optimizer.py`
(lines 113-153): walk the parsed module breadth-first (`ast.walk`) and collect
a `TestCase` for every `test_`-prefixed `FunctionDef`; a parse failure
(`parsed = none`) is caught and yields the empty list. -/
def parse_tests (parsed : Option PyNode) (test_code : String) : List TestCase :=
  match parsed with
  | none => []
  | some tree => (PyNode.walk [tree]).filterMap (extract_test_case test_code)

/-- Whether a node is a `test_`-prefixed `ast.FunctionDef` (the extraction
criterion of `_parse_tests`). -/
def isTestFuncDef : PyNode → Bool
  | .funcDef name _ _ _ _ => str_startsWith name "test_"
  | _ => false

/-- Number of `test_`-prefixed function definitions anywhere in a parsed
module: the `k` of the extractor contract. -/
def countTests (tree : PyNode) : Nat :=
  (PyNode.allNodes tree).countP isTestFuncDef

/-! ## Similarity analysis (SimilarityAnalyzer) -/

/-- `np.dot` on two embedding vectors. -/
def dot_product (v1 v2 : List ℝ) : ℝ :=
  (List.zipWith (· * ·) v1 v2).sum

/-- `np.linalg.norm`: the Euclidean norm, a square root of a sum of squares. -/
noncomputable def linalg_norm (v : List ℝ) : ℝ :=
  Real.sqrt ((v.map fun x => x * x).sum)

/-- `SimilarityAnalyzer._cosine_similarity` from
`app/optimizers/similarity_analyzer.py` (lines 125-151): guarded cosine
similarity, returning `0.0` whenever either vector has zero norm. -/
noncomputable def cosine_similarity (vec1 vec2 : List ℝ) : ℝ :=
  let norm1 := linalg_norm vec1
  let norm2 := linalg_norm vec2
  if norm1 = 0 ∨ norm2 = 0 then 0
  else dot_product vec1 vec2 / (norm1 * norm2)

/-- The index pairs `(i, j)` with `i < j < n` in the order produced by the
nested loops `for i in range(n): for j in range(i+1, n)`. -/
def allPairs (n : Nat) : List (Nat × Nat) :=
  (List.range n).flatMap fun i => ((List.range n).drop (i + 1)).map fun j => (i, j)

/-- Python's `round(x, 3)`: round to the nearest multiple of `1/1000`
(Python resolves exact ties to the even digit; `Mathlib.round` resolves them
upward — the two agree everywhere except at exact ties, which no claim
touches). -/
noncomputable def round3 (x : ℝ) : ℝ :=
  (round (x * 1000) : ℤ) / 1000

/-- Longest common prefix of two character lists
(`for c1, c2 in zip(name1, name2): ...` in the source). -/
def commonPrefix : List Char → List Char → List Char
  | c1 :: r1, c2 :: r2 => if c1 = c2 then c1 :: commonPrefix r1 r2 else []
  | _, _ => []

/-- Python `str.rstrip('_')`. -/
def rstripUnderscores (cs : List Char) : List Char :=
  (cs.reverse.dropWhile (· == '_')).reverse

/-- `SimilarityAnalyzer._generate_parametrization_example` from
`app/optimizers/similarity_analyzer.py` (lines 189-228). -/
def generate_parametrization_example (test1 test2 : TestCase) : String :=
  let name1 := test1.name.replace "test_" ""
  let name2 := test2.name.replace "test_" ""
  let base_name := String.mk (rstripUnderscores (commonPrefix name1.data name2.data))
  let base_name := if base_name = "" then "combined" else base_name
  "@pytest.mark.parametrize(\"test_case\", [\n    \"case_1\",  # from "
    ++ test1.name ++ "\n    \"case_2\",  # from " ++ test2.name
    ++ "\n])\ndef test_" ++ base_name ++ "(test_case):\n    # Combined test logic\n    pass"

/-- `SimilarityAnalyzer._create_similar_pair` from
`app/optimizers/similarity_analyzer.py` (lines 153-187): suggestion text by
similarity band (`≥ 0.9` near-duplicate, `≥ 0.8` parametrize, otherwise
consolidate), similarity rounded to three decimals. -/
noncomputable def create_similar_pair (test1 test2 : TestCase) (similarity : ℝ) :
    SimilarTestPair :=
  let suggestion :=
    if similarity ≥ 0.9 then "Tests are nearly identical - consider removing duplicate"
    else if similarity ≥ 0.8 then "Combine using parametrization with @pytest.mark.parametrize"
    else "Consider consolidating or making tests more distinct"
  { test1 := test1.name,
    test2 := test2.name,
    similarity := round3 similarity,
    suggestion := suggestion,
    example_code := some (generate_parametrization_example test1 test2) }

/-- `SimilarityAnalyzer.analyze` from `app/optimizers/similarity_analyzer.py`
(lines 37-85).  `clientSome` is whether `self.client` is set (embeddings
enabled and an API key present); `embeddings` is what `_get_embeddings`
returned (`[]` = the embedding call failed, since `_get_embeddings` catches
every exception and returns `[]`).  The source indexes `embeddings[i]` for
`i` up to `len(test_cases) - 1`; when the service returned fewer vectors than
test cases that raises `IndexError`, which the surrounding `try` converts to
an empty result — the third guard.  A pair is emitted exactly when
`similarity >= self.threshold` (inclusive). -/
noncomputable def analyze (clientSome : Bool) (threshold : ℝ)
    (test_cases : List TestCase) (embeddings : List (List ℝ)) :
    List SimilarTestPair :=
  if clientSome = false ∨ test_cases = [] ∨ test_cases.length < 2 then []
  else if embeddings = [] then []
  else if embeddings.length < test_cases.length then []
  else
    (allPairs test_cases.length).filterMap fun ij =>
      let similarity := cosine_similarity (embeddings.getD ij.1 []) (embeddings.getD ij.2 [])
      if similarity ≥ threshold then
        some (create_similar_pair (test_cases.getD ij.1 default)
          (test_cases.getD ij.2 default) similarity)
      else none

/-! ## Redundancy detection (RedundancyDetector) -/

/-- Python's `needle in hay` on strings: `needle` occurs contiguously in
`hay`. -/
def containsStr : List Char → List Char → Bool
  | needle, [] => needle.isEmpty
  | needle, c :: rest => leadsWith needle (c :: rest) || containsStr needle rest

/-- The match test of `RedundancyDetector._assertions_overlap`
(`a1 == a2 or a1 in a2 or a2 in a1`). -/
def assertion_matches (a1 a2 : String) : Bool :=
  a1 == a2 || containsStr a1.data a2.data || containsStr a2.data a1.data

/-- The `matches` counter of `RedundancyDetector._assertions_overlap`: for
each entry of `assertions1`, whether some entry of `assertions2` is an equal
or substring match (the inner loop `break`s at the first match, so each
`assertions1` entry counts at most once). -/
def match_count (assertions1 assertions2 : List String) : ℕ :=
  assertions1.countP fun a1 => assertions2.any fun a2 => assertion_matches a1 a2

/-- `RedundancyDetector._assertions_overlap` from
`app/optimizers/redundancy_detector.py` (lines 222-247): count, for each
entry of `assertions1`, whether some entry of `assertions2` is an equal or
substring match (inner loop with `break`), then compare
`matches / min(len(assertions1), len(assertions2))` against `0.5`. -/
def assertions_overlap (assertions1 assertions2 : List String) : Bool :=
  if assertions1 = [] ∨ assertions2 = [] then false
  else
    decide ((match_count assertions1 assertions2 : ℚ) /
      ((min assertions1.length assertions2.length : ℕ) : ℚ) > 1/2)

/-- Following the specification's words for the overlap check, for comparison
with `assertions_overlap`: "for each assertion in the smaller set, does an
equal or substring match exist in the other set; ratio = matches / size of
the smaller set", flag when the ratio exceeds 50%. -/
def spec_assertion_overlap (assertions1 assertions2 : List String) : Bool :=
  let smaller := if assertions1.length ≤ assertions2.length then assertions1 else assertions2
  let larger := if assertions1.length ≤ assertions2.length then assertions2 else assertions1
  decide ((match_count smaller larger : ℚ) / (smaller.length : ℚ) > 1/2)

/-- `RedundancyDetector._extract_assertions` from
`app/optimizers/redundancy_detector.py` (lines 188-220): walk the function
node, collecting the unparsed test of every `assert` statement and the
unparsed value of every expression statement calling an attribute named
`assert`; an `ast.unparse` failure (`none`) skips that node. -/
def extract_assertions (func_node : PyNode) : List String :=
  (PyNode.walk [func_node]).filterMap fun n =>
    match n with
    | .assertStmt t _ => t
    | .exprAttrCall a u _ => if a = "assert" then u else none
    | _ => none

/-- Insertion into the `existing_test_names` set (membership-preserving model
of a Python `set`). -/
def insertName (names : List String) (name : String) : List String :=
  if name ∈ names then names else names ++ [name]

/-- Assignment `d[k] = v` on an insertion-ordered Python dict modelled as an
association list: overwrite in place if the key exists, else append. -/
def dictInsert (m : List (String × List String)) (k : String) (v : List String) :
    List (String × List String) :=
  if m.any (fun kv => kv.1 == k) then
    m.map fun kv => if kv.1 == k then (k, v) else kv
  else m ++ [(k, v)]

/-- The first phase of `RedundancyDetector._find_redundant`
(`app/optimizers/redundancy_detector.py`, lines 73-88): parse every existing
test file (a parse failure skips that file), walk it, and record the name and
extracted assertions of every `test_`-prefixed `FunctionDef`. -/
def existing_tests_info (parse : String → Option PyNode) (existing_tests : List String) :
    List String × List (String × List String) :=
  existing_tests.foldl
    (fun acc code =>
      match parse code with
      | none => acc
      | some tree =>
        (PyNode.walk [tree]).foldl
          (fun acc2 n =>
            match n with
            | .funcDef name _ _ _ _ =>
              if str_startsWith name "test_" then
                (insertName acc2.1 name, dictInsert acc2.2 name (extract_assertions n))
              else acc2
            | _ => acc2)
          acc)
    ([], [])

/-- The per-new-test body of `RedundancyDetector._find_redundant`
(`app/optimizers/redundancy_detector.py`, lines 91-120): an exact name match
yields the single "same name" finding and `continue`s — the assertion-overlap
comparison is not reached for that test.  Otherwise the test's code is parsed
(a failure skips it) and every contained `FunctionDef` is compared against
the recorded assertion sets, emitting one finding for the first overlapping
existing test (`break`). -/
def process_new_test (parse : String → Option PyNode)
    (names : List String) (adict : List (String × List String)) (test : TestCase) :
    List RedundantTest :=
  if test.name ∈ names then
    [{ test := test.name,
       reason := "Test with same name already exists",
       existing_test := some ("existing test: " ++ test.name),
       suggestion := "Remove or rename this test" }]
  else
    match parse test.code with
    | none => []
    | some tree =>
      (PyNode.walk [tree]).flatMap fun n =>
        match n with
        | .funcDef _ _ _ _ _ =>
          match adict.find? (fun kv => assertions_overlap (extract_assertions n) kv.2) with
          | some kv =>
            [{ test := test.name,
               reason := "Similar assertions to existing test",
               existing_test := some kv.1,
               suggestion := "Consider consolidating or making more specific" }]
          | none => []
        | _ => []

/-- `RedundancyDetector._find_redundant` from
`app/optimizers/redundancy_detector.py` (lines 56-127). -/
def find_redundant (parse : String → Option PyNode)
    (test_cases : List TestCase) (existing_tests : List String) : List RedundantTest :=
  let info := existing_tests_info parse existing_tests
  test_cases.flatMap (process_new_test parse info.1 info.2)

/-! ## Coverage differencing (CoverageAnalyzer) -/

/-- `CoverageAnalyzer._get_file_coverage` from
`app/coverage/coverage_analyzer.py` (lines 248-265): a missing file
(`files.get(path, {})` returned `{}`) and an unrecognized shape both give
`0.0`; the `'summary'` shape returns `percent_covered` (default `0.0`); the
`'s'` shape returns the fraction of statements with positive execution count
times 100 (`0.0` for an empty statement map). -/
def get_file_coverage (file_data : Option FileData) : ℚ :=
  match file_data with
  | none => 0
  | some fd =>
    match fd.summary with
    | some sm => sm.getD 0
    | none =>
      match fd.s with
      | some statements =>
        if statements = [] then 0
        else ((statements.countP fun kv => decide (0 < kv.2)) : ℚ) / (statements.length : ℚ) * 100
      | none => 0

/-- `CoverageAnalyzer._calculate_module_changes` from
`app/coverage/coverage_analyzer.py` (lines 226-246): for every file path in
the union of the two snapshots' key sets (the source iterates a Python `set`,
whose order is unspecified; modelled as first-occurrence order), emit a
`ModuleCoverage` whose `before`/`after` are the per-file coverages — `0.0`
when the file is absent from that snapshot — and whose `change` is their
difference. -/
def calculate_module_changes (before_data after_data : CoverageData) :
    List ModuleCoverage :=
  let all_files := (before_data.files.map Prod.fst ++ after_data.files.map Prod.fst).dedup
  all_files.map fun file_path =>
    let before_cov := get_file_coverage (before_data.files.lookup file_path)
    let after_cov := get_file_coverage (after_data.files.lookup file_path)
    { file_path := file_path,
      before := before_cov,
      after := after_cov,
      change := after_cov - before_cov }

/-- The report-assembly fragment of `CoverageAnalyzer.analyze`
(`app/coverage/coverage_analyzer.py`, lines 113-124): the coverage gain is
`after_data.total_coverage - before_data.total_coverage` and the module list
comes from `_calculate_module_changes`. -/
def build_coverage_report (before_data after_data : CoverageData) : CoverageReportCore :=
  { before_coverage := before_data.total_coverage,
    after_coverage := after_data.total_coverage,
    coverage_gain := after_data.total_coverage - before_data.total_coverage,
    modules := calculate_module_changes before_data after_data }

/-! ## Gap analysis (GapAnalyzer) -/

/-- `GapAnalyzer._get_uncovered_lines` from `app/coverage/gap_analyzer.py`
(lines 106-124): prefer `missing_lines`, else the zero-count keys of `s`,
else the zero-count keys of `lines`, and return them sorted. -/
def get_uncovered_lines (file_data : FileData) : List Int :=
  let uncovered : List Int :=
    match file_data.missing_lines with
    | some ml => ml
    | none =>
      match file_data.s with
      | some statements => (statements.filter fun kv => kv.2 == 0).map (·.1)
      | none =>
        match file_data.lines with
        | some ls => (ls.filter fun kv => kv.2 == 0).map (·.1)
        | none => []
  uncovered.mergeSort fun a b => decide (a ≤ b)

/-- The function span recorded by `GapAnalyzer._build_function_map`: both
`FunctionDef` and `AsyncFunctionDef` nodes contribute, spanning `lineno` to
`end_lineno or lineno`. -/
def funcSpan : PyNode → Option (String × Int × Int)
  | .funcDef name lineno endLineno _ _ => some (name, lineno, endLineno.getD lineno)
  | .asyncFuncDef name lineno endLineno _ _ => some (name, lineno, endLineno.getD lineno)
  | _ => none

/-- `GapAnalyzer._build_function_map` from `app/coverage/gap_analyzer.py`
(lines 148-160): walk the tree, mapping every line of every (async) function
definition's span to its name; a later walk entry overwrites an earlier one,
as Python dict assignment does. -/
def build_function_map (tree : PyNode) : Int → Option String :=
  (PyNode.walk [tree]).foldl
    (fun fm n =>
      match funcSpan n with
      | some nse => fun line => if nse.2.1 ≤ line ∧ line ≤ nse.2.2 then some nse.1 else fm line
      | none => fm)
    (fun _ => none)

/-- `GapAnalyzer._generate_reason` from `app/coverage/gap_analyzer.py`
(lines 187-198). -/
def generate_reason (function_name : Option String) (complexity : Int) : String :=
  match function_name with
  | some fn =>
    if complexity > 10 then "Large uncovered function: " ++ fn
    else "Uncovered function: " ++ fn
  | none =>
    if complexity > 10 then "Large uncovered code block"
    else "Uncovered code section"

/-- `GapAnalyzer._analyze_file` from `app/coverage/gap_analyzer.py`
(lines 57-104).  `resolve` models `_resolve_file_path` followed by reading
the file: `none` means the path did not resolve or reading raised (the gaps
of that file are omitted); the inner `Option PyNode` is the `ast.parse`
outcome (`none` = parse failure, giving an empty function map).  Each grouped
range becomes a gap whose complexity is its line count `end - start + 1`. -/
def analyze_file (resolve : String → Option (Option PyNode))
    (file_path : String) (file_data : FileData) : List CoverageGap :=
  let uncovered_lines := get_uncovered_lines file_data
  if uncovered_lines = [] then []
  else
    match resolve file_path with
    | none => []
    | some parsed =>
      let function_map :=
        match parsed with
        | some tree => build_function_map tree
        | none => fun _ => none
      (group_line_ranges uncovered_lines 3).map fun se =>
        { file_path := file_path,
          line_start := se.1,
          line_end := se.2,
          function_name := function_map se.1,
          complexity := se.2 - se.1 + 1,
          reason := generate_reason (function_map se.1) (se.2 - se.1 + 1) }

/-- `GapAnalyzer.identify_gaps` from `app/coverage/gap_analyzer.py`
(lines 25-55): gather the gaps of every file, sort by complexity in
descending order (Python's stable `sort(key=..., reverse=True)`), and
truncate to `max_gaps`. -/
def identify_gaps (resolve : String → Option (Option PyNode))
    (coverage_data : CoverageData) (max_gaps : Nat := 10) : List CoverageGap :=
  let gaps := coverage_data.files.flatMap fun pfd => analyze_file resolve pfd.1 pfd.2
  let sorted := gaps.mergeSort fun g1 g2 => decide (g2.complexity ≤ g1.complexity)
  sorted.take max_gaps

/-! ## Concrete fixtures

Small concrete inputs used to exercise the contracts proved below. -/

/-- An empty report, for exercising the quality-score contract. -/
def quality_report_empty : OptimizationReport := {}

/-- A report with one redundant-test finding, for exercising the
quality-score contract. -/
def quality_report_one : OptimizationReport :=
  { redundant_tests := [{ test := "test_login",
                          reason := "Test with same name already exists",
                          existing_test := some "existing test: test_login",
                          suggestion := "Remove or rename this test" }] }

/-- The parse tree of the extractor counterexample source: a class whose body
holds `test_a` (lines 2-3) followed by a top-level `test_b` (lines 4-5).  The
class statement and the module are `other` nodes. -/
def c5_tree : PyNode :=
  PyNode.other
    [ PyNode.other [PyNode.funcDef "test_a" 2 (some 3) none []],
      PyNode.funcDef "test_b" 4 (some 5) none [] ]

/-- The extractor counterexample source. -/
def c5_source : String :=
  "class C:\n    def test_a(self):\n        pass\ndef test_b():\n    pass"

/-- Two test cases for exercising the similarity contract. -/
def sim_case_a : TestCase :=
  { name := "test_alpha", code := "def test_alpha():\n    assert f() == 1",
    line_start := 1, line_end := 2 }

/-- A second test case for exercising the similarity contract. -/
def sim_case_b : TestCase :=
  { name := "test_beta", code := "def test_beta():\n    assert f() == 2",
    line_start := 3, line_end := 4 }

/-- A snapshot with no per-file data, for exercising the coverage contract. -/
def cov_before : CoverageData := { total_coverage := 50, files := [] }

/-- A snapshot with one file at 80% coverage, for exercising the coverage
contract. -/
def cov_after : CoverageData :=
  { total_coverage := 80, files := [("m.py", { summary := some (some 80) })] }

/-- The module entry produced for `m.py`, which exists only in the after
snapshot. -/
def cov_module : ModuleCoverage :=
  { file_path := "m.py", before := 0, after := 80, change := 80 - 0 }

/-- A source-tree accessor whose files read but do not parse (the function
map is then empty), for exercising the gap contract. -/
def gap_resolve : String → Option (Option PyNode) := fun _ => some none

/-- A coverage payload with a single uncovered line, for exercising the gap
contract. -/
def gap_coverage : CoverageData :=
  { total_coverage := 40, files := [("f.py", { missing_lines := some [5] })] }

/-- The gap produced for line 5 of `f.py`. -/
def gap_example : CoverageGap :=
  { file_path := "f.py", line_start := 5, line_end := 5, function_name := none,
    complexity := 1, reason := "Uncovered code section" }

/-- A parser fixture: every source parses to a module holding a single
`test_login` function (matching the existing-test file used with it). -/
def redundancy_parse : String → Option PyNode :=
  fun _ => some (PyNode.other [PyNode.funcDef "test_login" 1 (some 2) none []])

/-- A new test case named like the existing `test_login`. -/
def redundancy_new_case : TestCase :=
  { name := "test_login", code := "def test_login():\n    pass",
    line_start := 1, line_end := 2 }

/-! ## Properties of the breadth-first walk -/

namespace PyNode

theorem nodeCount_eq (n : PyNode) : nodeCount n = 1 + nodeCountList n.children := by
  cases n <;> rfl

theorem allNodes_eq (n : PyNode) : allNodes n = n :: allNodesList n.children := by
  cases n <;> rfl

theorem nodeCountList_append (a b : List PyNode) :
    nodeCountList (a ++ b) = nodeCountList a + nodeCountList b := by
  induction a with
  | nil => simp [nodeCountList]
  | cons n ns ih => simp [nodeCountList, ih]; ring

theorem allNodesList_append (a b : List PyNode) :
    allNodesList (a ++ b) = allNodesList a ++ allNodesList b := by
  induction a with
  | nil => simp [allNodesList]
  | cons n ns ih => simp [allNodesList, ih]

theorem nodeCount_pos (n : PyNode) : 0 < nodeCount n := by
  cases n <;> simp [nodeCount]

theorem walkFuel_nil (fuel : Nat) : walkFuel fuel [] = [] := by
  cases fuel <;> simp [walkFuel]

/-- The breadth-first walk visits exactly the nodes of the forest (as a
multiset): it is a permutation of the depth-first enumeration. -/
theorem walkFuel_perm (fuel : Nat) (q : List PyNode) (h : nodeCountList q ≤ fuel) :
    List.Perm (walkFuel fuel q) (allNodesList q) := by
  induction fuel generalizing q with
  | zero =>
    cases q with
    | nil => simp [walkFuel_nil, allNodesList]
    | cons n q =>
      exfalso
      have := nodeCount_pos n
      simp [nodeCountList] at h
      omega
  | succ fuel ih =>
    cases q with
    | nil => simp [walkFuel_nil, allNodesList]
    | cons n q =>
      simp only [walkFuel]
      have hc : nodeCountList (q ++ n.children) =
          nodeCountList q + nodeCountList n.children := nodeCountList_append _ _
      have hn := nodeCount_eq n
      simp only [nodeCountList] at h
      have hper : List.Perm (walkFuel fuel (q ++ n.children))
          (allNodesList (q ++ n.children)) := by
        refine ih _ ?_
        omega
      have hper2 : List.Perm (walkFuel fuel (q ++ n.children))
          (allNodesList n.children ++ allNodesList q) := by
        rw [allNodesList_append] at hper
        exact hper.trans List.perm_append_comm
      have hgoal : allNodesList (n :: q) =
          n :: (allNodesList n.children ++ allNodesList q) := by
        show allNodes n ++ allNodesList q = _
        rw [allNodes_eq]
        rfl
      rw [hgoal]
      exact hper2.cons n

theorem walk_perm (roots : List PyNode) :
    List.Perm (walk roots) (allNodesList roots) :=
  walkFuel_perm _ roots (Nat.le_refl _)

/-- On a forest of leaf nodes the breadth-first walk is the identity. -/
theorem walkFuel_flat (fuel : Nat) (q : List PyNode)
    (hflat : ∀ c ∈ q, c.children = []) (h : nodeCountList q ≤ fuel) :
    walkFuel fuel q = q := by
  induction fuel generalizing q with
  | zero =>
    cases q with
    | nil => simp [walkFuel_nil]
    | cons n q =>
      exfalso
      have := nodeCount_pos n
      simp [nodeCountList] at h
      omega
  | succ fuel ih =>
    cases q with
    | nil => simp [walkFuel_nil]
    | cons n q =>
      simp only [walkFuel]
      have hn : n.children = [] := hflat n (by simp)
      rw [hn, List.append_nil]
      have hcount := nodeCount_eq n
      simp only [nodeCountList] at h
      rw [ih q (fun c hc => hflat c (by simp [hc])) (by omega)]

end PyNode

/-! ## C1: the quality score contract -/

/-- C1: for every optimization report the quality score equals 10.0 minus 0.5
per similarity pair, 0.75 per redundant finding, 1.0 per outdated finding and
0.25 per suggestion, clamped to `[0, 10]`; it always stays inside `[0, 10]`
(even when the deductions exceed 10), and it is monotonically non-increasing
as findings of any category are added.  Determinism is inherent: the score is
a function of the report. -/
theorem quality_score_contract :
    (∀ report : OptimizationReport,
      calculate_quality_score report =
        max 0 (min 10 ((10 : ℚ) - report.similar_pairs.length * (1/2)
          - report.redundant_tests.length * (3/4)
          - report.outdated_tests.length * 1
          - report.optimizations.length * (1/4)))) ∧
    (∀ report : OptimizationReport,
      0 ≤ calculate_quality_score report ∧ calculate_quality_score report ≤ 10) ∧
    (∀ r r' : OptimizationReport,
      r.similar_pairs.length ≤ r'.similar_pairs.length →
      r.redundant_tests.length ≤ r'.redundant_tests.length →
      r.outdated_tests.length ≤ r'.outdated_tests.length →
      r.optimizations.length ≤ r'.optimizations.length →
      calculate_quality_score r' ≤ calculate_quality_score r) := by
  have heq : ∀ report : OptimizationReport,
      calculate_quality_score report =
        max 0 (min 10 ((10 : ℚ) - report.similar_pairs.length * (1/2)
          - report.redundant_tests.length * (3/4)
          - report.outdated_tests.length * 1
          - report.optimizations.length * (1/4))) := fun _ => rfl
  refine ⟨heq, fun report => ⟨le_max_left _ _, ?_⟩, fun r r' h1 h2 h3 h4 => ?_⟩
  · rw [heq]
    exact max_le (by norm_num) (min_le_left _ _)
  · rw [heq, heq]
    have c1 : (r.similar_pairs.length : ℚ) ≤ r'.similar_pairs.length := by exact_mod_cast h1
    have c2 : (r.redundant_tests.length : ℚ) ≤ r'.redundant_tests.length := by exact_mod_cast h2
    have c3 : (r.outdated_tests.length : ℚ) ≤ r'.outdated_tests.length := by exact_mod_cast h3
    have c4 : (r.optimizations.length : ℚ) ≤ r'.optimizations.length := by exact_mod_cast h4
    refine max_le_max le_rfl (min_le_min le_rfl ?_)
    linarith

/-- Witness for C1: the monotonicity clause applied at concrete reports —
adding one redundant finding cannot raise the score. -/
theorem quality_score_contract_witness :
    calculate_quality_score quality_report_one ≤
      calculate_quality_score quality_report_empty :=
  quality_score_contract.2.2 quality_report_empty quality_report_one
    (by decide) (by decide) (by decide) (by decide)

/-! ## C2: gap grouping under the merge tolerance -/

/-- Counterexample to C2 as stated: with merge tolerance 0 the code starts a
new range whenever `line - prev > 0`, i.e. it splits even consecutive lines,
so `[10, 11, 12, 15]` yields four singleton ranges rather than the claimed
`[10, 12]` and `[15, 15]`. -/
theorem group_line_ranges_tol0_counterexample :
    group_line_ranges [10, 11, 12, 15] 0 ≠ [(10, 12), (15, 15)] := by decide

/-- Helper for C2: the fold underlying `_group_line_ranges` produces one
closed range per successive difference exceeding the tolerance. -/
theorem group_fold_length (max_gap : Int) (rest : List Int)
    (acc : List (Int × Int)) (start prev : Int) :
    ((rest.foldl (group_step max_gap) (acc, start, prev)).1).length =
      acc.length + ((prev :: rest).zip rest).countP
        (fun ab => decide (ab.2 - ab.1 > max_gap)) := by
  induction rest generalizing acc start prev with
  | nil => simp
  | cons line rest ih =>
    by_cases h : line - prev > max_gap
    · simp only [List.foldl_cons, group_step, if_pos h]
      rw [ih]
      simp [h]
      omega
    · simp only [List.foldl_cons, group_step, if_neg h]
      rw [ih]
      simp [h]

/-- Amended C2: grouping `[10, 11, 12, 15]` with merge tolerance 3 yields the
single range `[10, 15]`; tolerance 0 yields the four singleton ranges (it is
tolerance 1 that yields `[10, 12]` and `[15, 15]`); in general a new range
starts exactly when the difference between successive lines exceeds the
tolerance, so the number of ranges is one plus the number of successive
differences exceeding it. -/
theorem group_line_ranges_amended :
    group_line_ranges [10, 11, 12, 15] 3 = [(10, 15)] ∧
    group_line_ranges [10, 11, 12, 15] 0 =
      [(10, 10), (11, 11), (12, 12), (15, 15)] ∧
    group_line_ranges [10, 11, 12, 15] 1 = [(10, 12), (15, 15)] ∧
    ∀ (l0 : Int) (rest : List Int) (max_gap : Int),
      (group_line_ranges (l0 :: rest) max_gap).length =
        1 + ((l0 :: rest).zip rest).countP
          (fun ab => decide (ab.2 - ab.1 > max_gap)) := by
  refine ⟨by decide, by decide, by decide, fun l0 rest max_gap => ?_⟩
  simp only [group_line_ranges]
  rw [List.length_append, group_fold_length]
  simp [Nat.add_comm]

/-! ## C5: the extractor contract -/

/-- Helper: the length of a `filterMap` is the number of elements on which
the function succeeds. -/
theorem length_filterMap_eq_countP {α β : Type _} (f : α → Option β) (l : List α) :
    (l.filterMap f).length = l.countP fun a => (f a).isSome := by
  induction l with
  | nil => rfl
  | cons a l ih =>
    cases h : f a <;> simp [List.filterMap_cons, h, ih, List.countP_cons]

/-- Helper: extraction succeeds exactly on `test_`-prefixed `FunctionDef`
nodes. -/
theorem extract_test_case_isSome (test_code : String) (n : PyNode) :
    (extract_test_case test_code n).isSome = isTestFuncDef n := by
  cases n with
  | funcDef name lineno e d cs =>
    by_cases h : str_startsWith name "test_" <;> simp [extract_test_case, isTestFuncDef, h]
  | asyncFuncDef name lineno e d cs => simp [extract_test_case, isTestFuncDef]
  | assertStmt t cs => simp [extract_test_case, isTestFuncDef]
  | exprAttrCall a u cs => simp [extract_test_case, isTestFuncDef]
  | other cs => simp [extract_test_case, isTestFuncDef]

/-- Helper: the walk of a single module node whose statements have no nested
nodes is the module followed by its statements in source order. -/
theorem walk_single_flat (cs : List PyNode) (hflat : ∀ c ∈ cs, c.children = []) :
    PyNode.walk [PyNode.other cs] = PyNode.other cs :: cs := by
  have h1 : PyNode.nodeCountList [PyNode.other cs] =
      PyNode.nodeCountList cs + 1 := by
    simp [PyNode.nodeCountList, PyNode.nodeCount]
    omega
  unfold PyNode.walk
  rw [h1]
  show PyNode.other cs ::
      PyNode.walkFuel (PyNode.nodeCountList cs) ([] ++ (PyNode.other cs).children) = _
  rw [List.nil_append]
  show PyNode.other cs :: PyNode.walkFuel (PyNode.nodeCountList cs) cs = _
  rw [PyNode.walkFuel_flat _ cs hflat (Nat.le_refl _)]

/-- Counterexample to C5 as stated: `ast.walk` traverses breadth-first, so
the nested `test_a` (line 2) is emitted after the top-level `test_b`
(line 4) — the two records are not in source order. -/
theorem parse_tests_source_order_counterexample :
    (parse_tests (some c5_tree) c5_source).map (fun t => t.line_start) = [4, 2] ∧
    ¬ ((parse_tests (some c5_tree) c5_source).map
        (fun t => t.line_start)).Sorted (· ≤ ·) := by
  constructor <;> decide

/-- Amended C5: for every successfully parsed block the extractor returns
exactly one record per `test_`-prefixed function definition — in the
breadth-first order of `ast.walk`, which coincides with source order when
every test function sits at the top level of the module (but not for nested
definitions); a malformed block yields the empty sequence and never raises
(the parse failure is caught). -/
theorem parse_tests_amended :
    (∀ (tree : PyNode) (test_code : String),
      (parse_tests (some tree) test_code).length = countTests tree) ∧
    (∀ test_code : String, parse_tests none test_code = []) ∧
    (∀ (cs : List PyNode) (test_code : String),
      (∀ c ∈ cs, c.children = []) →
      parse_tests (some (PyNode.other cs)) test_code =
        cs.filterMap (extract_test_case test_code)) := by
  refine ⟨fun tree test_code => ?_, fun _ => rfl, fun cs test_code hflat => ?_⟩
  · show ((PyNode.walk [tree]).filterMap (extract_test_case test_code)).length = _
    rw [length_filterMap_eq_countP]
    have hperm := PyNode.walk_perm [tree]
    rw [hperm.countP_eq]
    have : PyNode.allNodesList [tree] = PyNode.allNodes tree := by
      simp [PyNode.allNodesList]
    rw [this]
    unfold countTests
    simp only [extract_test_case_isSome]
  · show (PyNode.walk [PyNode.other cs]).filterMap (extract_test_case test_code) = _
    rw [walk_single_flat cs hflat]
    simp [List.filterMap_cons, extract_test_case]

/-- Witness for C5 (amended): a flat module with two test functions and one
non-test function yields exactly its two test records, in source order. -/
theorem parse_tests_amended_witness :
    parse_tests
      (some (PyNode.other
        [ PyNode.funcDef "test_one" 1 (some 2) none [],
          PyNode.funcDef "helper" 3 (some 4) none [],
          PyNode.funcDef "test_two" 5 (some 6) none [] ]))
      "def test_one():\n    pass\ndef helper():\n    pass\ndef test_two():\n    pass" =
      [ PyNode.funcDef "test_one" 1 (some 2) none [],
        PyNode.funcDef "helper" 3 (some 4) none [],
        PyNode.funcDef "test_two" 5 (some 6) none [] ].filterMap
        (extract_test_case
          "def test_one():\n    pass\ndef helper():\n    pass\ndef test_two():\n    pass") :=
  parse_tests_amended.2.2
    [ PyNode.funcDef "test_one" 1 (some 2) none [],
      PyNode.funcDef "helper" 3 (some 4) none [],
      PyNode.funcDef "test_two" 5 (some 6) none [] ]
    "def test_one():\n    pass\ndef helper():\n    pass\ndef test_two():\n    pass"
    (by intro c hc; fin_cases hc <;> rfl)

/-! ## C3, C9, C10: the similarity detector -/

/-- Helper: a `filterMap` whose function is an if-then-some-else-none is the
`map` of the `filter`. -/
theorem filterMap_ite_eq_map_filter {α β : Type _} (p : α → Prop) [DecidablePred p]
    (f : α → β) (l : List α) :
    (l.filterMap fun a => if p a then some (f a) else none) =
      (l.filter fun a => decide (p a)).map f := by
  induction l with
  | nil => rfl
  | cons a l ih =>
    by_cases h : p a <;> simp [List.filterMap_cons, List.filter_cons, h, ih]

/-- C3: with a working embedding client, at least two test cases and an
embedding vector for each test case, `analyze` returns exactly the pairs
`(i, j)`, `i < j`, whose cosine similarity reaches the threshold
(inclusively), each as the `SimilarTestPair` built from that pair — so a pair
strictly below the threshold never appears, every qualifying unordered pair
is reported independently, and three mutually similar tests yield three
pairs. -/
theorem analyze_threshold_contract
    (threshold : ℝ) (test_cases : List TestCase) (embeddings : List (List ℝ))
    (h2 : 2 ≤ test_cases.length) (hne : embeddings ≠ [])
    (hlen : test_cases.length ≤ embeddings.length) :
    analyze true threshold test_cases embeddings =
      ((allPairs test_cases.length).filter fun ij =>
        decide (cosine_similarity (embeddings.getD ij.1 [])
          (embeddings.getD ij.2 []) ≥ threshold)).map
        (fun ij => create_similar_pair (test_cases.getD ij.1 default)
          (test_cases.getD ij.2 default)
          (cosine_similarity (embeddings.getD ij.1 []) (embeddings.getD ij.2 []))) ∧
    (analyze true threshold test_cases embeddings).length =
      ((allPairs test_cases.length).filter fun ij =>
        decide (cosine_similarity (embeddings.getD ij.1 [])
          (embeddings.getD ij.2 []) ≥ threshold)).length ∧
    (test_cases.length = 3 →
      (∀ ij ∈ allPairs 3,
        cosine_similarity (embeddings.getD ij.1 [])
          (embeddings.getD ij.2 []) ≥ threshold) →
      (analyze true threshold test_cases embeddings).length = 3) := by
  have hmain : analyze true threshold test_cases embeddings =
      ((allPairs test_cases.length).filter fun ij =>
        decide (cosine_similarity (embeddings.getD ij.1 [])
          (embeddings.getD ij.2 []) ≥ threshold)).map
        (fun ij => create_similar_pair (test_cases.getD ij.1 default)
          (test_cases.getD ij.2 default)
          (cosine_similarity (embeddings.getD ij.1 []) (embeddings.getD ij.2 []))) := by
    have hc1 : ¬(true = false ∨ test_cases = [] ∨ test_cases.length < 2) := by
      rintro (h | h | h)
      · simp at h
      · rw [h] at h2; simp at h2
      · omega
    have hc3 : ¬(embeddings.length < test_cases.length) := not_lt.mpr hlen
    show (if true = false ∨ test_cases = [] ∨ test_cases.length < 2 then []
      else if embeddings = [] then []
      else if embeddings.length < test_cases.length then []
      else (allPairs test_cases.length).filterMap fun ij =>
        if cosine_similarity (embeddings.getD ij.1 []) (embeddings.getD ij.2 []) ≥ threshold then
          some (create_similar_pair (test_cases.getD ij.1 default)
            (test_cases.getD ij.2 default)
            (cosine_similarity (embeddings.getD ij.1 []) (embeddings.getD ij.2 [])))
        else none) = _
    rw [if_neg hc1, if_neg hne, if_neg hc3]
    exact filterMap_ite_eq_map_filter
      (fun ij : ℕ × ℕ => cosine_similarity (embeddings.getD ij.1 [])
        (embeddings.getD ij.2 []) ≥ threshold)
      (fun ij : ℕ × ℕ => create_similar_pair (test_cases.getD ij.1 default)
        (test_cases.getD ij.2 default)
        (cosine_similarity (embeddings.getD ij.1 []) (embeddings.getD ij.2 [])))
      (allPairs test_cases.length)
  refine ⟨hmain, by rw [hmain, List.length_map], fun h3 hall => ?_⟩
  rw [hmain, List.length_map, h3]
  have : (allPairs 3).filter (fun ij =>
      decide (cosine_similarity (embeddings.getD ij.1 [])
        (embeddings.getD ij.2 []) ≥ threshold)) = allPairs 3 :=
    List.filter_eq_self.mpr fun ij hij => decide_eq_true (hall ij hij)
  rw [this]
  decide

/-- Witness for C3: the contract applied to two concrete test cases with one
one-dimensional embedding each. -/
theorem analyze_threshold_contract_witness :
    analyze true (7/10) [sim_case_a, sim_case_b] [[(1 : ℝ)], [(1 : ℝ)]] =
      ((allPairs ([sim_case_a, sim_case_b] : List TestCase).length).filter fun ij =>
        decide (cosine_similarity (([[(1 : ℝ)], [(1 : ℝ)]]).getD ij.1 [])
          (([[(1 : ℝ)], [(1 : ℝ)]]).getD ij.2 []) ≥ (7/10 : ℝ))).map
        (fun ij => create_similar_pair
          (([sim_case_a, sim_case_b] : List TestCase).getD ij.1 default)
          (([sim_case_a, sim_case_b] : List TestCase).getD ij.2 default)
          (cosine_similarity (([[(1 : ℝ)], [(1 : ℝ)]]).getD ij.1 [])
            (([[(1 : ℝ)], [(1 : ℝ)]]).getD ij.2 []))) :=
  (analyze_threshold_contract (7/10) [sim_case_a, sim_case_b]
    [[(1 : ℝ)], [(1 : ℝ)]] (by decide) (by simp) (by decide)).1

/-- C9: each degenerate case of the similarity detector — no usable client
(embeddings disabled or no API key), fewer than two test cases, or an
embedding-service failure (which `_get_embeddings` converts to `[]`) — yields
the empty result; the embedding is a total function, so no exception escapes
to the caller. -/
theorem analyze_degenerate_cases :
    (∀ (threshold : ℝ) (test_cases : List TestCase) (embeddings : List (List ℝ)),
      analyze false threshold test_cases embeddings = []) ∧
    (∀ (clientSome : Bool) (threshold : ℝ) (test_cases : List TestCase)
        (embeddings : List (List ℝ)),
      test_cases.length < 2 →
      analyze clientSome threshold test_cases embeddings = []) ∧
    (∀ (clientSome : Bool) (threshold : ℝ) (test_cases : List TestCase),
      analyze clientSome threshold test_cases [] = []) := by
  refine ⟨fun threshold test_cases embeddings => ?_,
    fun clientSome threshold test_cases embeddings h => ?_,
    fun clientSome threshold test_cases => ?_⟩
  · show (if false = false ∨ _ ∨ _ then ([] : List SimilarTestPair) else _) = []
    rw [if_pos (Or.inl rfl)]
  · show (if _ ∨ _ ∨ test_cases.length < 2 then ([] : List SimilarTestPair) else _) = []
    rw [if_pos (Or.inr (Or.inr h))]
  · by_cases hc : clientSome = false ∨ test_cases = [] ∨ test_cases.length < 2
    · show (if clientSome = false ∨ _ ∨ _ then ([] : List SimilarTestPair) else _) = []
      rw [if_pos hc]
    · show (if clientSome = false ∨ _ ∨ _ then ([] : List SimilarTestPair)
        else if ([] : List (List ℝ)) = [] then [] else _) = []
      rw [if_neg hc, if_pos rfl]

/-- Witness for C9: a single test case (fewer than two) with a working client
and a non-empty embedding list still yields no pairs. -/
theorem analyze_degenerate_cases_witness :
    analyze true (7/10) [sim_case_a] [[(1 : ℝ)]] = [] :=
  analyze_degenerate_cases.2.1 true (7/10) [sim_case_a] [[(1 : ℝ)]] (by decide)

/-- C10: the cosine-similarity computation is total and its division is
guarded — whenever either vector has zero norm the result is `0.0` (no
division is attempted), and otherwise the divisor `norm1 * norm2` is provably
non-zero.  Totality (the analyzer can never raise here) is inherent: the
embedding is a function defined on all vector pairs. -/
theorem cosine_similarity_guarded (vec1 vec2 : List ℝ) :
    (linalg_norm vec1 = 0 ∨ linalg_norm vec2 = 0 →
      cosine_similarity vec1 vec2 = 0) ∧
    (linalg_norm vec1 ≠ 0 → linalg_norm vec2 ≠ 0 →
      linalg_norm vec1 * linalg_norm vec2 ≠ 0 ∧
      cosine_similarity vec1 vec2 =
        dot_product vec1 vec2 / (linalg_norm vec1 * linalg_norm vec2)) := by
  constructor
  · intro h
    show (if linalg_norm vec1 = 0 ∨ linalg_norm vec2 = 0 then 0 else _) = 0
    rw [if_pos h]
  · intro h1 h2
    refine ⟨mul_ne_zero h1 h2, ?_⟩
    show (if linalg_norm vec1 = 0 ∨ linalg_norm vec2 = 0 then 0 else _) = _
    rw [if_neg (not_or_intro h1 h2)]

/-- Witness for C10: on the zero vector the guard fires and the similarity is
`0.0` rather than a division by zero. -/
theorem cosine_similarity_guarded_witness :
    cosine_similarity [(0 : ℝ)] [(1 : ℝ)] = 0 :=
  (cosine_similarity_guarded [(0 : ℝ)] [(1 : ℝ)]).1
    (Or.inl (by simp [linalg_norm]))

/-! ## C4: the assertion-overlap heuristic -/

/-- Helper: the rational comparison `m / n > 1/2` is the integer comparison
`n < 2 * m` for a positive denominator. -/
theorem div_gt_half_iff (m n : ℕ) (hn : 0 < n) :
    ((m : ℚ) / (n : ℚ) > 1/2) ↔ n < 2 * m := by
  rw [gt_iff_lt, div_lt_div_iff₀ (by norm_num) (by exact_mod_cast hn)]
  constructor
  · intro h
    have : (n : ℚ) < 2 * m := by linarith
    exact_mod_cast this
  · intro h
    have : (n : ℚ) < 2 * m := by exact_mod_cast h
    linarith

/-- Helper: computable form of `_assertions_overlap`. -/
theorem assertions_overlap_eq (assertions1 assertions2 : List String) :
    assertions_overlap assertions1 assertions2 =
      (decide (assertions1 ≠ []) && decide (assertions2 ≠ []) &&
        decide (min assertions1.length assertions2.length <
          2 * match_count assertions1 assertions2)) := by
  by_cases h1 : assertions1 = []
  · simp [assertions_overlap, h1]
  by_cases h2 : assertions2 = []
  · simp [assertions_overlap, h2]
  · have hmin : 0 < min assertions1.length assertions2.length := by
      rw [lt_min_iff]
      exact ⟨List.length_pos.mpr h1, List.length_pos.mpr h2⟩
    simp only [assertions_overlap, if_neg (not_or_intro h1 h2)]
    have d1 : decide (assertions1 ≠ []) = true := by simp [h1]
    have d2 : decide (assertions2 ≠ []) = true := by simp [h2]
    rw [d1, d2, Bool.true_and, Bool.true_and]
    exact decide_eq_decide.mpr (div_gt_half_iff _ _ hmin)

/-- Helper: computable form of the specification's overlap formula when the
smaller list is non-empty. -/
theorem spec_assertion_overlap_eq (assertions1 assertions2 : List String)
    (h : (if assertions1.length ≤ assertions2.length then assertions1
      else assertions2) ≠ []) :
    spec_assertion_overlap assertions1 assertions2 =
      decide ((if assertions1.length ≤ assertions2.length then assertions1
          else assertions2).length <
        2 * match_count
          (if assertions1.length ≤ assertions2.length then assertions1
            else assertions2)
          (if assertions1.length ≤ assertions2.length then assertions2
            else assertions1)) := by
  have hpos : 0 < (if assertions1.length ≤ assertions2.length then assertions1
      else assertions2).length := List.length_pos.mpr h
  simp only [spec_assertion_overlap]
  exact decide_eq_decide.mpr (div_gt_half_iff _ _ hpos)

/-- Counterexample to C4 as stated: the code iterates over the NEW test's
assertion list (`assertions1`), not over the smaller of the two lists.  For
the new list `["x == 1", "x", "y == 2"]` (three distinct assertions) against
the existing list `["x == 1", "z == 3"]`, the code counts 2 matches
(`"x == 1"` equal, `"x"` a substring of `"x == 1"`) out of `min = 2` and
flags; the spec's formula iterates the smaller existing list, counts 1 match
(`"x == 1"`) out of its 2 entries — ratio exactly 1/2, not above 50% — and
does not flag. -/
theorem assertions_overlap_iterates_first_list :
    assertions_overlap ["x == 1", "x", "y == 2"] ["x == 1", "z == 3"] = true ∧
    spec_assertion_overlap ["x == 1", "x", "y == 2"] ["x == 1", "z == 3"] = false := by
  constructor
  · rw [assertions_overlap_eq]
    decide
  · rw [spec_assertion_overlap_eq _ _ (by decide)]
    decide

/-- Amended C4: the assertion-overlap check flags exactly when both assertion
lists are non-empty and `matches / min(len1, len2) > 1/2`, where `matches`
counts, for each assertion of the NEW test's list, whether an equal or
substring match exists in the existing test's list (so when the new list is
the larger one, the iteration runs over the larger list and the ratio can
exceed 1). -/
theorem assertions_overlap_amended (assertions1 assertions2 : List String) :
    assertions_overlap assertions1 assertions2 = true ↔
      assertions1 ≠ [] ∧ assertions2 ≠ [] ∧
      ((match_count assertions1 assertions2 : ℚ) /
        ((min assertions1.length assertions2.length : ℕ) : ℚ) > 1/2) := by
  by_cases h1 : assertions1 = []
  · simp [assertions_overlap, h1]
  by_cases h2 : assertions2 = []
  · simp [assertions_overlap, h2]
  · simp [assertions_overlap, not_or_intro h1 h2, h1, h2]

/-! ## C6: coverage differencing -/

/-- C6: the reported coverage gain is exactly
`after.total_coverage - before.total_coverage`; every per-file module change
is `after - before` of the two per-file coverages, where a file missing from
a snapshot contributes `0.0` there (`files.get(path, {})`); and every file of
either snapshot gets a module entry. -/
theorem coverage_gain_contract :
    (∀ before_data after_data : CoverageData,
      (build_coverage_report before_data after_data).coverage_gain =
        after_data.total_coverage - before_data.total_coverage) ∧
    (∀ (before_data after_data : CoverageData)
        (m : ModuleCoverage),
      m ∈ (build_coverage_report before_data after_data).modules →
        m.before = get_file_coverage (before_data.files.lookup m.file_path) ∧
        m.after = get_file_coverage (after_data.files.lookup m.file_path) ∧
        m.change = m.after - m.before ∧
        (before_data.files.lookup m.file_path = none → m.before = 0) ∧
        (after_data.files.lookup m.file_path = none → m.after = 0)) ∧
    (∀ (before_data after_data : CoverageData) (p : String),
      p ∈ before_data.files.map Prod.fst ++ after_data.files.map Prod.fst →
      ∃ m ∈ (build_coverage_report before_data after_data).modules,
        m.file_path = p) := by
  refine ⟨fun before_data after_data => rfl,
    fun before_data after_data m hm => ?_, fun before_data after_data p hp => ?_⟩
  · obtain ⟨fp, hfp, rfl⟩ := List.mem_map.mp hm
    refine ⟨rfl, rfl, rfl, fun hnone => ?_, fun hnone => ?_⟩
    · show get_file_coverage (before_data.files.lookup fp) = 0
      rw [hnone]
      rfl
    · show get_file_coverage (after_data.files.lookup fp) = 0
      rw [hnone]
      rfl
  · exact ⟨_, List.mem_map.mpr ⟨p, List.mem_dedup.mpr hp, rfl⟩, rfl⟩

/-- Witness for C6: a file present only in the after snapshot is treated as
0% before, and its change is `after - before`. -/
theorem coverage_gain_contract_witness :
    cov_module.before = get_file_coverage (cov_before.files.lookup cov_module.file_path) ∧
    cov_module.after = get_file_coverage (cov_after.files.lookup cov_module.file_path) ∧
    cov_module.change = cov_module.after - cov_module.before ∧
    (cov_before.files.lookup cov_module.file_path = none → cov_module.before = 0) ∧
    (cov_after.files.lookup cov_module.file_path = none → cov_module.after = 0) :=
  coverage_gain_contract.2.1 cov_before cov_after cov_module
    (by simp [build_coverage_report, calculate_module_changes, cov_before,
      cov_after, cov_module, get_file_coverage, List.lookup])

/-! ## C7: gap ranking -/

/-- Helper: every gap produced by `_analyze_file` has complexity equal to the
line count of its range. -/
theorem analyze_file_complexity (resolve : String → Option (Option PyNode))
    (file_path : String) (file_data : FileData) (g : CoverageGap)
    (hg : g ∈ analyze_file resolve file_path file_data) :
    g.complexity = g.line_end - g.line_start + 1 := by
  unfold analyze_file at hg
  by_cases hu : get_uncovered_lines file_data = []
  · rw [if_pos hu] at hg
    simp at hg
  · rw [if_neg hu] at hg
    cases hres : resolve file_path with
    | none =>
      rw [hres] at hg
      simp at hg
    | some parsed =>
      rw [hres] at hg
      obtain ⟨se, _, rfl⟩ := List.mem_map.mp hg
      rfl

/-- C7: the gap locator returns at most `max_gaps` gaps, sorted by complexity
in descending order, and every returned gap's complexity is the length of its
line range (`end - start + 1`). -/
theorem identify_gaps_contract (resolve : String → Option (Option PyNode))
    (coverage_data : CoverageData) (max_gaps : Nat) :
    (identify_gaps resolve coverage_data max_gaps).length ≤ max_gaps ∧
    (identify_gaps resolve coverage_data max_gaps).Pairwise
      (fun g1 g2 => g2.complexity ≤ g1.complexity) ∧
    ∀ g ∈ identify_gaps resolve coverage_data max_gaps,
      g.complexity = g.line_end - g.line_start + 1 := by
  refine ⟨?_, ?_, ?_⟩
  · show ((List.mergeSort _ _).take max_gaps).length ≤ max_gaps
    rw [List.length_take]
    exact min_le_left _ _
  · have hs : (List.mergeSort
        (coverage_data.files.flatMap fun pfd => analyze_file resolve pfd.1 pfd.2)
        (fun g1 g2 : CoverageGap => decide (g2.complexity ≤ g1.complexity))).Pairwise
        (fun g1 g2 : CoverageGap => decide (g2.complexity ≤ g1.complexity)) :=
      List.sorted_mergeSort
        (fun a b c hab hbc => by
          simp only [decide_eq_true_eq] at *
          exact le_trans hbc hab)
        (fun a b => by
          simp only [Bool.or_eq_true, decide_eq_true_eq]
          exact le_total _ _)
        _
    show ((List.mergeSort _ _).take max_gaps).Pairwise _
    exact (hs.sublist (List.take_sublist _ _)).imp fun h => by simpa using h
  · intro g hg
    have hg1 : g ∈ List.mergeSort
        (coverage_data.files.flatMap fun pfd => analyze_file resolve pfd.1 pfd.2)
        (fun g1 g2 : CoverageGap => decide (g2.complexity ≤ g1.complexity)) :=
      (List.take_sublist _ _).subset hg
    rw [List.mem_mergeSort] at hg1
    obtain ⟨pfd, _, hgf⟩ := List.mem_flatMap.mp hg1
    exact analyze_file_complexity _ _ _ _ hgf

/-- Witness for C7: the complexity clause applied to the concrete gap the
locator returns for one uncovered line. -/
theorem identify_gaps_contract_witness :
    gap_example.complexity = gap_example.line_end - gap_example.line_start + 1 :=
  (identify_gaps_contract gap_resolve gap_coverage 10).2.2 gap_example
    (by simp [identify_gaps, analyze_file, get_uncovered_lines, group_line_ranges,
      gap_resolve, gap_coverage, gap_example, generate_reason, List.mergeSort])

/-! ## C8: redundancy by exact name match -/

/-- Helper: every finding emitted for a new test carries that test's name in
its `test` field. -/
theorem process_new_test_test_field (parse : String → Option PyNode)
    (names : List String) (adict : List (String × List String)) (test : TestCase) :
    ∀ r ∈ process_new_test parse names adict test, r.test = test.name := by
  intro r hr
  unfold process_new_test at hr
  by_cases hn : test.name ∈ names
  · rw [if_pos hn] at hr
    simp only [List.mem_singleton] at hr
    subst hr
    rfl
  · rw [if_neg hn] at hr
    cases hp : parse test.code with
    | none =>
      rw [hp] at hr
      exact absurd hr (List.not_mem_nil r)
    | some tree =>
      rw [hp] at hr
      obtain ⟨n, _, hrn⟩ := List.mem_flatMap.mp hr
      cases n with
      | funcDef nm l e d cs =>
        cases hf : adict.find? (fun kv =>
            assertions_overlap (extract_assertions (PyNode.funcDef nm l e d cs)) kv.2) with
        | none =>
          rw [hf] at hrn
          exact absurd hrn (List.not_mem_nil r)
        | some kv =>
          rw [hf] at hrn
          simp only [List.mem_singleton] at hrn
          subst hrn
          rfl
      | asyncFuncDef nm l e d cs => exact absurd hrn (List.not_mem_nil r)
      | assertStmt tt cs => exact absurd hrn (List.not_mem_nil r)
      | exprAttrCall a u cs => exact absurd hrn (List.not_mem_nil r)
      | other cs => exact absurd hrn (List.not_mem_nil r)

/-- Helper: the number of findings naming `name` equals the number of new
test cases named `name`, whenever `name` is one of the existing test names. -/
theorem find_redundant_countP (parse : String → Option PyNode)
    (existing_tests : List String) (name : String)
    (h : name ∈ (existing_tests_info parse existing_tests).1) :
    ∀ test_cases : List TestCase,
      (find_redundant parse test_cases existing_tests).countP
          (fun r => r.test == name) =
        test_cases.countP (fun tc => tc.name == name)
  | [] => rfl
  | t :: rest => by
    have hstep : find_redundant parse (t :: rest) existing_tests =
        process_new_test parse (existing_tests_info parse existing_tests).1
          (existing_tests_info parse existing_tests).2 t ++
        find_redundant parse rest existing_tests := rfl
    rw [hstep, List.countP_append, List.countP_cons,
      find_redundant_countP parse existing_tests name h rest]
    by_cases ht : t.name = name
    · have hproc : process_new_test parse (existing_tests_info parse existing_tests).1
          (existing_tests_info parse existing_tests).2 t =
          [{ test := t.name, reason := "Test with same name already exists",
             existing_test := some ("existing test: " ++ t.name),
             suggestion := "Remove or rename this test" }] := by
        unfold process_new_test
        rw [if_pos (by rw [ht]; exact h)]
      rw [hproc]
      simp [List.countP_cons, ht]
      omega
    · have hz : (process_new_test parse (existing_tests_info parse existing_tests).1
          (existing_tests_info parse existing_tests).2 t).countP
          (fun r => r.test == name) = 0 := by
        rw [List.countP_eq_zero]
        intro r hr
        have hrt := process_new_test_test_field parse _ _ t r hr
        simp [hrt, ht]
      rw [hz]
      simp [ht]

/-- C8: a new test whose name exactly matches an existing test name always
gets exactly the single "same name" finding — the per-test output is that one
finding, the assertion-overlap comparison is skipped for it (`continue`), and
across the whole batch the detector emits exactly one finding per new test
case bearing that name. -/
theorem redundancy_same_name_contract (parse : String → Option PyNode)
    (test_cases : List TestCase) (existing_tests : List String) (t : TestCase)
    (hname : t.name ∈ (existing_tests_info parse existing_tests).1) :
    process_new_test parse (existing_tests_info parse existing_tests).1
        (existing_tests_info parse existing_tests).2 t =
      [{ test := t.name, reason := "Test with same name already exists",
         existing_test := some ("existing test: " ++ t.name),
         suggestion := "Remove or rename this test" }] ∧
    (find_redundant parse test_cases existing_tests).countP
        (fun r => r.test == t.name) =
      test_cases.countP (fun tc => tc.name == t.name) := by
  constructor
  · unfold process_new_test
    rw [if_pos hname]
  · exact find_redundant_countP parse existing_tests t.name hname test_cases

/-- Witness for C8: the name-collision contract applied to a concrete
`test_login` collision. -/
theorem redundancy_same_name_contract_witness :
    process_new_test redundancy_parse
        (existing_tests_info redundancy_parse ["def test_login():\n    pass"]).1
        (existing_tests_info redundancy_parse ["def test_login():\n    pass"]).2
        redundancy_new_case =
      [{ test := "test_login", reason := "Test with same name already exists",
         existing_test := some ("existing test: " ++ "test_login"),
         suggestion := "Remove or rename this test" }] ∧
    (find_redundant redundancy_parse [redundancy_new_case]
        ["def test_login():\n    pass"]).countP
        (fun r => r.test == "test_login") =
      ([redundancy_new_case] : List TestCase).countP
        (fun tc => tc.name == "test_login") :=
  redundancy_same_name_contract redundancy_parse [redundancy_new_case]
    ["def test_login():\n    pass"] redundancy_new_case (by decide)

end TestAuthoring
